import Mathlib

/-!
Verification of the graph/checkpoint/interrupt engine underlying the
`s6_LG` repository, a collection of near-identical LangGraph scripts
(`1_graph_basic.py` … `5_graph_state.py`, `main.py`).

The routers, node handlers and graph constructions are embedded directly
from the Python sources under `src/`.  The engine itself (StateGraph
compilation, the `add_messages` reducer, the checkpoint saver, the
interrupt/resume protocol, `ToolNode`) lives in the langgraph library and
is not part of the repository's own sources, so those parts are modelled
from the specification (each such definition's doc comment says so).
-/

namespace S6LG

/-- The terminal sentinel.  `langgraph.graph.END` is the string
`"__end__"`. -/
def END : String := "__end__"

/-- A requested tool invocation carried by a message: a tool name plus its
(opaquely rendered) arguments.  `main.py` inspects `tool_calls[0].get("name")`,
the tool node passes the arguments to the named tool. -/
structure ToolCall where
  name : String
  args : String
deriving DecidableEq

/-- A chat message.  `id` is the optional identity field used by the
append-distinct reducer; `tool_calls` is `none` when the message lacks the
attribute (the routers test `hasattr(ai_message, "tool_calls")`) and
`some l` when it carries the list `l` of requested invocations. -/
structure Message where
  role : String
  content : String
  id : Option String
  tool_calls : Option (List ToolCall)
deriving DecidableEq

/-- Does some message in `xs` carry the identity `id`?  An item with no
identity (`none`) never matches. -/
def hasId (id : Option String) (xs : List Message) : Bool :=
  match id with
  | none => false
  | some i => xs.any (fun m => m.id = some i)

/-- Modelled from the spec: the `add_messages` reducer from
`langgraph.graph.message` (library code, not under `src/`), declared as the
reducer of the `messages` field in every `State` class of the repository.
"New items are concatenated after existing items preserving arrival order;
if an item carries an identity field, an item sharing identity with an
existing one is skipped (idempotent insert)." -/
def add_messages (existing new : List Message) : List Message :=
  new.foldl (fun acc m => if hasId m.id acc then acc else acc ++ [m]) existing

/-- `true` when every item of `new`, processed in arrival order, carries no
identity already present among `acc` and the earlier new items: no item
would be skipped by the duplicate-identity rule. -/
def freshAll (acc : List Message) : List Message → Bool
  | [] => true
  | m :: rest => !hasId m.id acc && freshAll (acc ++ [m]) rest

/-- The graph state shared by the scripts: a `messages` field reduced by
`add_messages`, plus the `user_name` field that `5_graph_state.py` adds
(default replace reducer). -/
structure GState where
  messages : List Message
  user_name : String
deriving DecidableEq

/-- A partial state update returned by a node handler: messages to append
via the reducer, and an optional replacement for `user_name`. -/
structure StateDelta where
  messages : List Message
  user_name : Option String
deriving DecidableEq

/-- Modelled from the spec: merging a partial update into the state using
the per-field reducers — `add_messages` for `messages`, last-write
overwrite for `user_name`. -/
def applyDelta (s : GState) (d : StateDelta) : GState :=
  { messages := add_messages s.messages d.messages
    user_name := d.user_name.getD s.user_name }

/-- The empty state a fresh thread starts from. -/
def emptyState : GState := { messages := [], user_name := "" }

/-! ### The routers (embedded from src/) -/

/-- The argument the repository's routers actually receive: either a bare
list of messages (the `isinstance(state, list)` branch) or a dict-like
state whose `"messages"` key holds the history (`state.get("messages", [])`
— a missing key behaves exactly like an empty list, so both are modelled
by `asDict []`). -/
inductive RouterState where
  | asList (msgs : List Message)
  | asDict (msgs : List Message)
deriving DecidableEq

/-- The exceptions the router code can raise: the explicit
`ValueError(f"No messages found in input state to tool_edge: {state}")`
(modelled as carrying the offending state it mentions) and Python's
`IndexError` raised by `state[-1]` on an empty list. -/
inductive RouterError where
  | valueError (offending : RouterState)
  | indexError (msg : String)
deriving DecidableEq

/-- The final check shared by all routers: `"tools"` when the last message
has a `tool_calls` attribute (`hasattr`) with positive length, the
terminal sentinel `END` otherwise. -/
def routeOnMessage (m : Message) : String :=
  match m.tool_calls with
  | some tcs => if 0 < tcs.length then "tools" else END
  | none => END

/-- `route_tools` from src/3_graph_memory.py lines 77-90 and
src/5_graph_state.py lines 91-104: take the last element of a list state
(IndexError on an empty list), else the last of a non-empty `messages`
field, else raise ValueError mentioning the state; then route on the last
message's tool calls. -/
def route_tools (state : RouterState) : Except RouterError String :=
  match state with
  | .asList msgs =>
    match msgs.getLast? with
    | some m => .ok (routeOnMessage m)
    | none => .error (.indexError "list index out of range")
  | .asDict msgs =>
    match msgs.getLast? with
    | some m => .ok (routeOnMessage m)
    | none => .error (.valueError (.asDict msgs))

/-- `tools_router` from src/2_graph_tools.py lines 91-104 and
src/4_graph_human_in_the_loop.py lines 94-107 — textually the same
function as `route_tools`. -/
def tools_router (state : RouterState) : Except RouterError String :=
  match state with
  | .asList msgs =>
    match msgs.getLast? with
    | some m => .ok (routeOnMessage m)
    | none => .error (.indexError "list index out of range")
  | .asDict msgs =>
    match msgs.getLast? with
    | some m => .ok (routeOnMessage m)
    | none => .error (.valueError (.asDict msgs))

/-- The last message of a router input, when defined. -/
def lastMessage : RouterState → Option Message
  | .asList msgs => msgs.getLast?
  | .asDict msgs => msgs.getLast?

/-- Number of requested tool invocations a message carries; a message
without the `tool_calls` attribute carries none. -/
def toolCallCount (m : Message) : Nat := (m.tool_calls.getD []).length

/-- Is the router result a raised ValueError? -/
def isValueError : Except RouterError String → Bool
  | .error (.valueError _) => true
  | _ => false

/-! ### Model-calling node handlers (embedded from src/) -/

/-- `chatbot` from src/1_graph_basic.py lines 31-32: invoke the opaque
model on the state's messages and return the single-message partial
update `{"messages": [llm.invoke(state["messages"])]}` (no assertion in
this script). -/
def chatbot_basic (llm : List Message → Message) (state : GState) : StateDelta :=
  { messages := [llm state.messages], user_name := none }

/-- `chatbot` from src/5_graph_state.py lines 81-87 (and, modulo the bound
tool list, src/3_graph_memory.py lines 72-73 plus the assertion): invoke
the tool-bound model on the messages, `assert len(message.tool_calls) <= 1`
(an `AssertionError` aborts the handler), then return the partial update. -/
def chatbot (llm : List Message → Message) (state : GState) :
    Except String StateDelta :=
  let message := llm state.messages
  if (message.tool_calls.getD []).length ≤ 1 then
    .ok { messages := [message], user_name := none }
  else
    .error "AssertionError: len(message.tool_calls) <= 1"

/-- `call_model_node` from src/2_graph_tools.py lines 71-84 and
src/4_graph_human_in_the_loop.py lines 74-87: prepend the formatted system
message to the state's messages, invoke the tool-bound model, assert at
most one tool call, and return the partial update. -/
def call_model_node (llm : List Message → Message) (systemMessage : Message)
    (state : GState) : Except String StateDelta :=
  let message := llm (systemMessage :: state.messages)
  if (message.tool_calls.getD []).length ≤ 1 then
    .ok { messages := [message], user_name := none }
  else
    .error "AssertionError: len(message.tool_calls) <= 1"

/-- Modelled from the spec: the tool-dispatch node (`ToolNode` from
`langgraph.prebuilt`, library code not under `src/`): "reads the most
recent message's requested tool invocations, invokes each named tool
handler with the message's supplied arguments, and produces one result
message per invocation"; it enforces no limit on how many invocations a
message requests. -/
def tool_node (tools : String → String → String) (state : GState) : StateDelta :=
  let tcs := (state.messages.getLast?.bind (fun m => m.tool_calls)).getD []
  { messages := tcs.map (fun tc =>
      { role := "tool", content := tools tc.name tc.args, id := none,
        tool_calls := none })
    user_name := none }

/-! ### Graph model and compiler (modelled from the spec) -/

/-- Modelled from the spec: the graph assembled by `StateGraph` /
`add_node` / `add_edge` / `add_conditional_edges` (langgraph library code,
not under `src/`).  The `add_edge(START, n)` call is modelled as the entry
node id; `edges` holds the remaining unconditional edges; `conditional`
maps a source node to its router's key-to-target mapping. -/
structure Graph where
  nodes : List String
  entry : String
  edges : List (String × String)
  conditional : List (String × List (String × String))
deriving DecidableEq

/-- Modelled from the spec: a `ConfigurationError` names the offending
node or edge of an invalid graph rejected by `compile`. -/
inductive ConfigurationError where
  | duplicateNodeId (id : String)
  | missingEntry (id : String)
  | unresolvableTarget (source target : String)
  | bothEdgeKinds (id : String)
deriving DecidableEq

/-- A target is resolvable when it names a node or the terminal sentinel. -/
def resolvable (g : Graph) (t : String) : Bool :=
  t = END || g.nodes.contains t

/-- Does `n` have an outgoing unconditional edge? -/
def hasUncondEdge (g : Graph) (n : String) : Bool :=
  g.edges.any (fun e => e.1 = n)

/-- Does `n` have a conditional edge? -/
def hasCondEdge (g : Graph) (n : String) : Bool :=
  g.conditional.any (fun c => c.1 = n)

/-- First node id occurring twice in the list, if any. -/
def firstDup : List String → Option String
  | [] => none
  | x :: xs => if xs.contains x then some x else firstDup xs

/-- All (source, target) pairs contributed by conditional edges. -/
def condPairs (g : Graph) : List (String × String) :=
  (g.conditional.map (fun c => c.2.map (fun kv => (c.1, kv.2)))).flatten

/-- Modelled from the spec: `compile(graph) -> CompiledGraph |
ConfigurationError` (library code, not under `src/`).  It validates node
id uniqueness, entry node existence, resolvability of every
edge/conditional target (to a node id or the terminal sentinel), and that
no node has both an unconditional edge and a conditional edge; terminal
reachability is only a warning-level check and is not modelled.  Errors
name the offending node/edge. -/
def compile (g : Graph) : Except ConfigurationError Graph :=
  match firstDup g.nodes with
  | some n => .error (.duplicateNodeId n)
  | none =>
    if g.nodes.contains g.entry then
      match (g.edges ++ condPairs g).find? (fun e => !resolvable g e.2) with
      | some e => .error (.unresolvableTarget e.1 e.2)
      | none =>
        match g.nodes.find? (fun n => hasUncondEdge g n && hasCondEdge g n) with
        | some n => .error (.bothEdgeKinds n)
        | none => .ok g
    else .error (.missingEntry g.entry)

/-- The graph built in src/1_graph_basic.py lines 26-43: single node
`chatbot`, entry edge from START, unconditional edge to END. -/
def basicGraph : Graph :=
  { nodes := ["chatbot"], entry := "chatbot",
    edges := [("chatbot", END)], conditional := [] }

/-- The graph built in src/2_graph_tools.py lines 107-122 (and, with the
extra human tool, src/4_graph_human_in_the_loop.py lines 110-126): nodes
`call_model` and `tools`; `add_edge(START, "call_model")`,
`add_edge("tools", "call_model")`, `add_edge("call_model", END)`, plus
`add_conditional_edges("call_model", tools_router,
{"tools": "tools", END: END})`. -/
def toolsGraph : Graph :=
  { nodes := ["call_model", "tools"], entry := "call_model",
    edges := [("tools", "call_model"), ("call_model", END)],
    conditional := [("call_model", [("tools", "tools"), (END, END)])] }

/-- The graph built in src/5_graph_state.py lines 107-129 and
src/3_graph_memory.py lines 93-115: nodes `chatbot` and `tools`;
`add_edge(START, "chatbot")`, `add_conditional_edges("chatbot",
route_tools, {"tools": "tools", END: END})`, `add_edge("tools",
"chatbot")`, `add_edge("chatbot", END)`. -/
def stateGraph : Graph :=
  { nodes := ["chatbot", "tools"], entry := "chatbot",
    edges := [("tools", "chatbot"), ("chatbot", END)],
    conditional := [("chatbot", [("tools", "tools"), (END, END)])] }

/-! ### Executor, checkpoint store and interrupt protocol
(modelled from the spec) -/

/-- The payload `{"query": q}` that `human_assistance` passes to
`interrupt`. -/
structure InterruptPayload where
  query : String
deriving DecidableEq

/-- The resume value `{"data": v}` supplied by
`Command(resume={"data": human_response})` in src/main.py line 95 and
src/5_graph_state.py line 166. -/
structure ResumeValue where
  data : String
deriving DecidableEq

/-- Modelled from the spec: a pending interrupt correlates the suspended
node invocation with the eventual resume value. -/
structure PendingInterrupt where
  node : String
  payload : InterruptPayload
deriving DecidableEq

/-- Modelled from the spec: a handler either returns a partial state
update or suspends with a payload (the tagged result
`Continue(PartialState) | Suspend(Payload)`). -/
inductive HandlerResult where
  | Continue (delta : StateDelta)
  | Suspend (payload : InterruptPayload)

/-- A node handler: given the state and, when resuming, the resume value
supplied as the result of its suspend point, produce a result. -/
def Handler : Type := GState → Option ResumeValue → HandlerResult

/-- Modelled from the spec: a checkpoint record (step index, state
snapshot, optional pending interrupt); the thread id is the store key. -/
structure Checkpoint where
  stepIndex : Nat
  state : GState
  pendingInterrupt : Option PendingInterrupt

/-- Modelled from the spec: the checkpoint store (`MemorySaver`, library
code not under `src/`), an append-only map from thread id to that
thread's checkpoints in save order. -/
def CheckpointStore : Type := String → List Checkpoint

/-- The store of a fresh `MemorySaver()`: no checkpoints for any thread. -/
def emptyStore : CheckpointStore := fun _ => []

/-- Modelled from the spec: `save(threadId, Checkpoint)` appends to that
thread's records and leaves every other thread untouched. -/
def save (store : CheckpointStore) (threadId : String) (cp : Checkpoint) :
    CheckpointStore :=
  fun t => if t = threadId then store t ++ [cp] else store t

/-- Modelled from the spec: `loadLatest(threadId)` returns the most
recently saved record for that thread, if any. -/
def loadLatest (store : CheckpointStore) (threadId : String) :
    Option Checkpoint :=
  (store threadId).getLast?

/-- Modelled from the spec: `loadStep(threadId, stepIndex)`. -/
def loadStep (store : CheckpointStore) (threadId : String) (i : Nat) :
    Option Checkpoint :=
  (store threadId).find? (fun cp => cp.stepIndex = i)

/-- The thread's pending interrupt: the one recorded on its latest
checkpoint, if any — by construction at most one per thread. -/
def pendingOf (store : CheckpointStore) (threadId : String) :
    Option PendingInterrupt :=
  (loadLatest store threadId).bind (fun cp => cp.pendingInterrupt)

/-- The state a run for this thread starts from: the latest checkpoint's
snapshot, or the empty state if none exists. -/
def stateOfLatest (store : CheckpointStore) (threadId : String) : GState :=
  match loadLatest store threadId with
  | some cp => cp.state
  | none => emptyState

/-- The step index the next checkpoint of this thread will carry. -/
def nextIndex (store : CheckpointStore) (threadId : String) : Nat :=
  match loadLatest store threadId with
  | some cp => cp.stepIndex + 1
  | none => 0

/-- Resolution of a router key through a conditional edge's mapping. -/
def resolveKey (mapping : List (String × String)) (key : String) :
    Option String :=
  (mapping.find? (fun kv => kv.1 = key)).map (fun kv => kv.2)

/-- Modelled from the spec, step 5 of the run algorithm: the next node
after `current` — the unconditional edge's target if one exists, else the
router's key resolved through the conditional mapping (a routing error
carrying the key when it is absent from the mapping), else the terminal
sentinel. -/
def nextNode (g : Graph) (routers : String → GState → String)
    (current : String) (s : GState) : Except String String :=
  match g.edges.find? (fun e => e.1 = current) with
  | some e => .ok e.2
  | none =>
    match g.conditional.find? (fun c => c.1 = current) with
    | some c =>
      match resolveKey c.2 (routers current s) with
      | some target => .ok target
      | none => .error (routers current s)
    | none => .ok END

/-- How a run ended.  `suspended` is a paused run, not a failed one; the
error outcomes are `routingError` and `interruptMismatch`; `outOfFuel`
only marks exhaustion of the loop's fuel. -/
inductive RunOutcome where
  | completed
  | suspended (payload : InterruptPayload)
  | routingError (key : String)
  | interruptMismatch
  | outOfFuel
deriving DecidableEq

/-- The observable result of a run: the updated store, the emitted state
snapshots (one per completed step, in order), and the outcome. -/
structure RunResult where
  store : CheckpointStore
  snapshots : List GState
  outcome : RunOutcome

/-- Modelled from the spec, step 4 of the run algorithm (fuel-indexed to
make the loop structurally recursive): invoke the current node's handler;
on `Continue` merge the update via the reducers, append a checkpoint with
no pending interrupt, emit the merged state, and route (stopping at the
terminal sentinel); on `Suspend` append a checkpoint recording the
pending interrupt and the still-unmerged state and stop the run paused —
unless the thread's earlier interrupt has not been resumed (`hadPending`),
in which case the double-suspend is the `InterruptMismatch` error. -/
def runLoop (g : Graph) (handlers : String → Handler)
    (routers : String → GState → String) (threadId : String) :
    Nat → CheckpointStore → Nat → GState → String → Option ResumeValue →
    Bool → RunResult
  | 0, store, _, _, _, _, _ => ⟨store, [], .outOfFuel⟩
  | fuel + 1, store, idx, s, current, rv, hadPending =>
    match handlers current s rv with
    | .Suspend payload =>
      if hadPending then ⟨store, [], .interruptMismatch⟩
      else
        ⟨save store threadId ⟨idx, s, some ⟨current, payload⟩⟩, [],
          .suspended payload⟩
    | .Continue delta =>
      let s2 := applyDelta s delta
      let store2 := save store threadId ⟨idx, s2, none⟩
      match nextNode g routers current s2 with
      | .error key => ⟨store2, [s2], .routingError key⟩
      | .ok nxt =>
        if nxt = END then ⟨store2, [s2], .completed⟩
        else
          let r := runLoop g handlers routers threadId fuel store2 (idx + 1)
            s2 nxt none hadPending
          ⟨r.store, s2 :: r.snapshots, r.outcome⟩

/-- Modelled from the spec: `run(compiledGraph, threadId,
inputPartialState)` — load the latest checkpoint for the thread (empty
state if none), merge the input partial state into it via the field
reducers, and drive the graph from its entry node. -/
def run (g : Graph) (handlers : String → Handler)
    (routers : String → GState → String) (store : CheckpointStore)
    (threadId : String) (input : StateDelta) (fuel : Nat) : RunResult :=
  runLoop g handlers routers threadId fuel store (nextIndex store threadId)
    (applyDelta (stateOfLatest store threadId) input) g.entry none
    (pendingOf store threadId).isSome

/-- Modelled from the spec: `resume(threadId, resumeValue)` — load the
checkpoint with the pending interrupt for the thread, clear it, and
re-invoke the suspended node's handler supplying the resume value as the
result of its suspend point; with no pending interrupt the call fails
with `InterruptMismatch` and continues nothing. -/
def resume (g : Graph) (handlers : String → Handler)
    (routers : String → GState → String) (store : CheckpointStore)
    (threadId : String) (v : ResumeValue) (fuel : Nat) : RunResult :=
  match loadLatest store threadId with
  | some cp =>
    match cp.pendingInterrupt with
    | some pi =>
      runLoop g handlers routers threadId fuel store (cp.stepIndex + 1)
        cp.state pi.node (some v) false
    | none => ⟨store, [], .interruptMismatch⟩
  | none => ⟨store, [], .interruptMismatch⟩

/-! ### The interrupt/resume scenario pieces (handlers from src/) -/

/-- `human_assistance` from src/4_graph_human_in_the_loop.py lines 63-67
(and src/5_graph_state.py lines 67-71): `interrupt({"query": query})`
suspends; on resumption the suspend point evaluates to the supplied
resume value and the tool returns `human_response["data"]`. -/
def human_assistance (query : String) (rv : Option ResumeValue) :
    Except InterruptPayload String :=
  match rv with
  | none => .error { query := query }
  | some human_response => .ok human_response.data

/-- A tool-result message wrapping a tool's string result. -/
def toolMessage (content : String) : Message :=
  { role := "tool", content := content, id := none, tool_calls := none }

/-- The node that executes a pending `human_assistance` tool call with
argument `query`: the tool's suspension suspends the node, its returned
value becomes one tool-result message merged via the append reducer. -/
def humanNodeHandler (query : String) : Handler := fun _s rv =>
  match human_assistance query rv with
  | .error payload => .Suspend payload
  | .ok answer =>
    .Continue { messages := [toolMessage answer], user_name := none }

/-- A one-node graph whose single node runs the human-assistance tool and
then reaches the terminal sentinel (the scenario-C shape). -/
def humanGraph : Graph :=
  { nodes := ["human"], entry := "human",
    edges := [("human", END)], conditional := [] }

/-- Trivial router, for graphs with no conditional edges. -/
def noRouter : String → GState → String := fun _ _ => END

/-- Handler table of `humanGraph`. -/
def humanHandlers (query : String) : String → Handler :=
  fun _ => humanNodeHandler query

/-- Handler table of `basicGraph`: the single `chatbot` node backed by
`chatbot_basic`, which never suspends. -/
def basicHandlers (llm : List Message → Message) : String → Handler :=
  fun _ => fun s _ => .Continue (chatbot_basic llm s)

end S6LG

namespace S6LG

/-! ### Helper lemmas about the append-distinct reducer -/

theorem add_messages_nil_right (xs : List Message) : add_messages xs [] = xs := rfl

theorem add_messages_cons (xs : List Message) (m : Message) (rest : List Message) :
    add_messages xs (m :: rest) =
      add_messages (if hasId m.id xs then xs else xs ++ [m]) rest := by
  simp only [add_messages, List.foldl_cons]

theorem add_messages_sublist_shape (ys xs : List Message) :
    ∃ kept, add_messages xs ys = xs ++ kept ∧ kept.Sublist ys := by
  induction ys generalizing xs with
  | nil => exact ⟨[], (List.append_nil xs).symm, List.Sublist.refl []⟩
  | cons m rest ih =>
    rw [add_messages_cons]
    by_cases h : hasId m.id xs = true
    · rw [if_pos h]
      obtain ⟨kept, hk, hs⟩ := ih xs
      exact ⟨kept, hk, hs.cons m⟩
    · rw [if_neg h]
      obtain ⟨kept, hk, hs⟩ := ih (xs ++ [m])
      refine ⟨m :: kept, ?_, hs.cons₂ m⟩
      rw [hk, List.append_assoc]
      rfl

theorem add_messages_skip (xs : List Message) (m : Message)
    (h : hasId m.id xs = true) : add_messages xs [m] = xs := by
  simp [add_messages, h]

theorem hasId_append_self (xs : List Message) (m : Message) (i : String)
    (h : m.id = some i) : hasId m.id (xs ++ [m]) = true := by
  simp [hasId, h]

theorem add_messages_idem (xs : List Message) (m : Message) (i : String)
    (h : m.id = some i) :
    add_messages (add_messages xs [m]) [m] = add_messages xs [m] := by
  by_cases hx : hasId m.id xs
  · rw [add_messages_skip xs m hx, add_messages_skip xs m hx]
  · have h1 : add_messages xs [m] = xs ++ [m] := by
      simp [add_messages, hx]
    rw [h1]
    exact add_messages_skip (xs ++ [m]) m (hasId_append_self xs m i h)

theorem add_messages_fresh (ys xs : List Message)
    (h : freshAll xs ys = true) : add_messages xs ys = xs ++ ys := by
  induction ys generalizing xs with
  | nil => rw [add_messages_nil_right, List.append_nil]
  | cons m rest ih =>
    rw [freshAll] at h
    simp only [Bool.and_eq_true, Bool.not_eq_true'] at h
    rw [add_messages_cons, if_neg (by simp [h.1])]
    rw [ih (xs ++ [m]) h.2, List.append_assoc]
    rfl

theorem add_messages_extends (xs ys : List Message) :
    xs <+: add_messages xs ys := by
  obtain ⟨kept, hk, _⟩ := add_messages_sublist_shape ys xs
  exact ⟨kept, hk.symm⟩

/-- C3: for every sequence of updates folded into the `messages` field by
the `add_messages` reducer, (a) the result is the existing items followed
by a subsequence of the new items in arrival order (existing items never
reordered or dropped, new items kept in arrival order); (b) when no new
item duplicates an already-seen identity, nothing is dropped at all and
the result is the plain concatenation; (c) a new item whose identity is
already present is skipped; (d) inserting the same identified item twice
yields the same field value as inserting it once (idempotent insert). -/
theorem add_messages_reducer_correct :
    (∀ xs ys, ∃ kept, add_messages xs ys = xs ++ kept ∧ kept.Sublist ys) ∧
    (∀ xs ys, freshAll xs ys = true → add_messages xs ys = xs ++ ys) ∧
    (∀ xs m, hasId m.id xs = true → add_messages xs [m] = xs) ∧
    (∀ xs m i, m.id = some i →
      add_messages (add_messages xs [m]) [m] = add_messages xs [m]) := by
  refine ⟨?_, ?_, ?_, ?_⟩
  · exact fun xs ys => add_messages_sublist_shape ys xs
  · exact fun xs ys h => add_messages_fresh ys xs h
  · exact add_messages_skip
  · exact add_messages_idem

/-- Witness for C3 at concrete inputs: one existing message, one new
identified message inserted twice. -/
theorem add_messages_reducer_correct_witness :
    add_messages
        (add_messages [⟨"user", "hi", some "u1", none⟩] [⟨"ai", "ok", some "a1", none⟩])
        [⟨"ai", "ok", some "a1", none⟩] =
      add_messages [⟨"user", "hi", some "u1", none⟩] [⟨"ai", "ok", some "a1", none⟩] :=
  add_messages_reducer_correct.2.2.2 [⟨"user", "hi", some "u1", none⟩]
    ⟨"ai", "ok", some "a1", none⟩ "a1" rfl

/-! ### Router theorems -/

theorem routeOnMessage_cases (m : Message) :
    (routeOnMessage m = "tools" ↔ 0 < toolCallCount m) ∧
    (routeOnMessage m = END ↔ toolCallCount m = 0) := by
  have hne : ("tools" : String) ≠ END := by decide
  unfold routeOnMessage toolCallCount
  cases m.tool_calls with
  | none =>
    simp only [Option.getD_none, List.length_nil]
    constructor
    · constructor
      · intro hc
        exact absurd hc.symm hne
      · intro hl
        exact absurd hl (by omega)
    · trivial
  | some tcs =>
    simp only [Option.getD_some]
    by_cases h : 0 < tcs.length
    · rw [if_pos h]
      exact ⟨⟨fun _ => h, fun _ => rfl⟩,
        ⟨fun hc => absurd hc hne, fun hc => absurd h (by omega)⟩⟩
    · rw [if_neg h]
      exact ⟨⟨fun hc => absurd hc.symm hne, fun hl => absurd hl h⟩,
        ⟨fun _ => by omega, fun _ => rfl⟩⟩

/-- C2: whenever the state handed to the router has a last message, the
router returns the key "tools" if and only if that message carries at
least one requested tool invocation (a non-empty `tool_calls` attribute),
and returns the terminal sentinel `END` if and only if it carries none;
`tools_router` (2_graph_tools, 4_graph_human_in_the_loop) and
`route_tools` (3_graph_memory, 5_graph_state) behave identically. -/
theorem router_routes_to_tools_iff_tool_calls (st : RouterState) (m : Message)
    (h : lastMessage st = some m) :
    (route_tools st = .ok "tools" ↔ 0 < toolCallCount m) ∧
    (route_tools st = .ok END ↔ toolCallCount m = 0) ∧
    tools_router st = route_tools st := by
  have hsame : tools_router st = route_tools st := by
    cases st <;> rfl
  have hok : route_tools st = .ok (routeOnMessage m) := by
    cases st with
    | asList msgs =>
      simp only [lastMessage] at h
      simp [route_tools, h]
    | asDict msgs =>
      simp only [lastMessage] at h
      simp [route_tools, h]
  refine ⟨?_, ?_, hsame⟩
  · rw [hok, Except.ok.injEq]
    exact (routeOnMessage_cases m).1
  · rw [hok, Except.ok.injEq]
    exact (routeOnMessage_cases m).2

/-- Witness for C2: a dict state whose last message requests one tool
call routes to "tools". -/
theorem router_routes_to_tools_iff_tool_calls_witness :
    route_tools (.asDict [⟨"ai", "x", none, some [⟨"internet_search", "q"⟩]⟩]) =
      .ok "tools" :=
  ((router_routes_to_tools_iff_tool_calls
      (.asDict [⟨"ai", "x", none, some [⟨"internet_search", "q"⟩]⟩])
      ⟨"ai", "x", none, some [⟨"internet_search", "q"⟩]⟩ rfl).1).mpr (by decide)

/-- C10 counterexample: the empty list is a state that is neither a
non-empty list nor a mapping with a non-empty messages field, yet the
router raises IndexError (from `state[-1]`), not the claimed ValueError. -/
theorem router_empty_list_not_value_error :
    route_tools (.asList []) = .error (.indexError "list index out of range") ∧
    isValueError (route_tools (.asList [])) = false := by
  exact ⟨rfl, rfl⟩

/-- C10 (amended): a mapping without a non-empty messages field makes the
router raise ValueError mentioning the offending state; an empty list
makes it raise IndexError; every state with a last message yields a
routing key without raising — and `tools_router` behaves identically. -/
theorem router_error_behaviour :
    (route_tools (.asDict []) = .error (.valueError (.asDict []))) ∧
    (route_tools (.asList []) = .error (.indexError "list index out of range")) ∧
    (∀ st m, lastMessage st = some m →
      route_tools st = .ok (routeOnMessage m) ∧
      tools_router st = .ok (routeOnMessage m)) := by
  refine ⟨rfl, rfl, ?_⟩
  intro st m h
  cases st with
  | asList msgs =>
    simp only [lastMessage] at h
    exact ⟨by simp [route_tools, h], by simp [tools_router, h]⟩
  | asDict msgs =>
    simp only [lastMessage] at h
    exact ⟨by simp [route_tools, h], by simp [tools_router, h]⟩

/-- Witness for C10 (amended) at a concrete one-message state. -/
theorem router_error_behaviour_witness :
    route_tools (.asList [⟨"ai", "hello", none, none⟩]) = .ok END ∧
    tools_router (.asList [⟨"ai", "hello", none, none⟩]) = .ok END := by
  have h := router_error_behaviour.2.2 (.asList [⟨"ai", "hello", none, none⟩])
    ⟨"ai", "hello", none, none⟩ rfl
  exact ⟨h.1, h.2⟩

/-! ### Handler theorems -/

/-- C8: under the upstream contract that the opaque model returns at most
one requested tool invocation per response, the assertion
`len(message.tool_calls) <= 1` in the model-calling handlers never fails —
`chatbot` (5_graph_state) and `call_model_node` (2_graph_tools,
4_graph_human_in_the_loop) always return their partial update — while the
tool-dispatch node produces one result message per requested invocation,
however many there are, never failing and enforcing no limit. -/
theorem model_handlers_assert_at_most_one_tool_call
    (llm : List Message → Message)
    (hllm : ∀ hist, toolCallCount (llm hist) ≤ 1) :
    (∀ s, chatbot llm s =
      .ok { messages := [llm s.messages], user_name := none }) ∧
    (∀ sys s, call_model_node llm sys s =
      .ok { messages := [llm (sys :: s.messages)], user_name := none }) ∧
    (∀ tools s, (tool_node tools s).messages.length =
      ((s.messages.getLast?.bind (fun m => m.tool_calls)).getD []).length) := by
  refine ⟨?_, ?_, ?_⟩
  · intro s
    have h := hllm s.messages
    unfold toolCallCount at h
    simp only [chatbot]
    rw [if_pos h]
  · intro sys s
    have h := hllm (sys :: s.messages)
    unfold toolCallCount at h
    simp only [call_model_node]
    rw [if_pos h]
  · intro tools s
    simp only [tool_node]
    rw [List.length_map]

/-! ### Compiler theorems -/

/-- C1: every graph accepted by `compile` has no node with both an
outgoing unconditional edge and a conditional edge, and a violating graph
is rejected at compile time with a `ConfigurationError` naming the
offending node.  In particular the tool-loop graphs built in this
repository — which call `add_edge("call_model", END)` /
`add_edge("chatbot", END)` as well as `add_conditional_edges` on the same
node — fail to compile with exactly that error, while the basic linear
graph compiles. -/
theorem compile_rejects_both_edge_kinds :
    (∀ g cg, compile g = .ok cg → ∀ n, n ∈ g.nodes →
      ¬(hasUncondEdge g n = true ∧ hasCondEdge g n = true)) ∧
    compile toolsGraph = .error (.bothEdgeKinds "call_model") ∧
    compile stateGraph = .error (.bothEdgeKinds "chatbot") ∧
    compile basicGraph = .ok basicGraph := by
  refine ⟨?_, rfl, rfl, rfl⟩
  intro g cg hok n hn hboth
  unfold compile at hok
  split at hok
  · exact absurd hok (by simp)
  · split at hok
    · split at hok
      · exact absurd hok (by simp)
      · split at hok
        · exact absurd hok (by simp)
        · rename_i hfind
          have := List.find?_eq_none.mp hfind n hn
          simp only [Bool.and_eq_true] at this
          exact this ⟨hboth.1, hboth.2⟩
    · exact absurd hok (by simp)

/-- Witness for C1: the accepted basic graph indeed has no node with both
edge kinds — instantiated at its single node `chatbot`. -/
theorem compile_rejects_both_edge_kinds_witness :
    ¬(hasUncondEdge basicGraph "chatbot" = true ∧
      hasCondEdge basicGraph "chatbot" = true) :=
  compile_rejects_both_edge_kinds.1 basicGraph basicGraph rfl "chatbot"
    (by simp [basicGraph])

/-- Witness for C8: a model that always requests exactly one tool call
passes the assertion, and the tool node fans out a two-call message into
two result messages. -/
theorem model_handlers_assert_at_most_one_tool_call_witness :
    chatbot (fun _ => ⟨"ai", "hi", none, some [⟨"internet_search", "q"⟩]⟩)
        { messages := [], user_name := "" } =
      .ok { messages := [⟨"ai", "hi", none, some [⟨"internet_search", "q"⟩]⟩],
            user_name := none } :=
  (model_handlers_assert_at_most_one_tool_call
      (fun _ => ⟨"ai", "hi", none, some [⟨"internet_search", "q"⟩]⟩)
      (fun _ =>
        (by decide :
          toolCallCount ⟨"ai", "hi", none, some [⟨"internet_search", "q"⟩]⟩ ≤ 1))).1
    { messages := [], user_name := "" }

/-! ### Executor helper lemmas -/

theorem add_messages_singleton (xs : List Message) (m : Message) :
    add_messages xs [m] = if hasId m.id xs then xs else xs ++ [m] := rfl

theorem hasId_nil (i : Option String) : hasId i [] = false := by
  cases i <;> rfl

theorem save_other (store : CheckpointStore) (threadId t : String)
    (cp : Checkpoint) (h : t ≠ threadId) :
    save store threadId cp t = store t := by
  simp [save, h]

theorem save_self (store : CheckpointStore) (threadId : String)
    (cp : Checkpoint) :
    save store threadId cp threadId = store threadId ++ [cp] := by
  simp [save]

theorem loadLatest_save (store : CheckpointStore) (threadId : String)
    (cp : Checkpoint) :
    loadLatest (save store threadId cp) threadId = some cp := by
  simp [loadLatest, save]

theorem stateOfLatest_save (store : CheckpointStore) (threadId : String)
    (cp : Checkpoint) :
    stateOfLatest (save store threadId cp) threadId = cp.state := by
  rw [stateOfLatest, loadLatest_save]

theorem applyDelta_extends (s : GState) (d : StateDelta) :
    s.messages <+: (applyDelta s d).messages :=
  add_messages_extends s.messages d.messages

theorem runLoop_snapshots_extend (g : Graph) (handlers : String → Handler)
    (routers : String → GState → String) (threadId : String) :
    ∀ (fuel : Nat) (store : CheckpointStore) (idx : Nat) (s : GState)
      (current : String) (rv : Option ResumeValue) (hp : Bool),
      ∀ x ∈ (runLoop g handlers routers threadId fuel store idx s current
          rv hp).snapshots,
        s.messages <+: x.messages := by
  intro fuel
  induction fuel with
  | zero =>
    intro store idx s current rv hp x hx
    simp [runLoop] at hx
  | succ fuel ih =>
    intro store idx s current rv hp x hx
    rw [runLoop] at hx
    split at hx
    · split at hx <;> simp at hx
    · rename_i delta _
      dsimp only at hx
      split at hx
      · simp only [List.mem_singleton] at hx
        rw [hx]
        exact applyDelta_extends s delta
      · split at hx
        · simp only [List.mem_singleton] at hx
          rw [hx]
          exact applyDelta_extends s delta
        · simp only [List.mem_cons] at hx
          rcases hx with hx | hx
          · rw [hx]
            exact applyDelta_extends s delta
          · exact (applyDelta_extends s delta).trans (ih _ _ _ _ _ _ x hx)

theorem runLoop_store_other (g : Graph) (handlers : String → Handler)
    (routers : String → GState → String) (threadId : String) :
    ∀ (fuel : Nat) (store : CheckpointStore) (idx : Nat) (s : GState)
      (current : String) (rv : Option ResumeValue) (hp : Bool) (t : String),
      t ≠ threadId →
      (runLoop g handlers routers threadId fuel store idx s current rv
        hp).store t = store t := by
  intro fuel
  induction fuel with
  | zero =>
    intro store idx s current rv hp t ht
    rfl
  | succ fuel ih =>
    intro store idx s current rv hp t ht
    rw [runLoop]
    cases handlers current s rv with
    | Suspend payload =>
      dsimp only
      split
      · rfl
      · exact save_other store threadId t _ ht
    | Continue delta =>
      dsimp only
      cases nextNode g routers current (applyDelta s delta) with
      | error key =>
        dsimp only
        exact save_other store threadId t _ ht
      | ok nxt =>
        dsimp only
        split
        · exact save_other store threadId t _ ht
        · dsimp only
          rw [ih _ _ _ _ _ _ t ht]
          exact save_other store threadId t _ ht

theorem runLoop_store_independent (g : Graph) (handlers : String → Handler)
    (routers : String → GState → String) (threadId : String) :
    ∀ (fuel : Nat) (store store' : CheckpointStore) (idx : Nat) (s : GState)
      (current : String) (rv : Option ResumeValue) (hp : Bool),
      store threadId = store' threadId →
      (runLoop g handlers routers threadId fuel store idx s current rv
          hp).snapshots =
        (runLoop g handlers routers threadId fuel store' idx s current rv
          hp).snapshots ∧
      (runLoop g handlers routers threadId fuel store idx s current rv
          hp).outcome =
        (runLoop g handlers routers threadId fuel store' idx s current rv
          hp).outcome ∧
      (runLoop g handlers routers threadId fuel store idx s current rv
          hp).store threadId =
        (runLoop g handlers routers threadId fuel store' idx s current rv
          hp).store threadId := by
  intro fuel
  induction fuel with
  | zero =>
    intro store store' idx s current rv hp h
    exact ⟨rfl, rfl, h⟩
  | succ fuel ih =>
    intro store store' idx s current rv hp h
    rw [runLoop, runLoop]
    cases handlers current s rv with
    | Suspend payload =>
      dsimp only
      split
      · exact ⟨rfl, rfl, h⟩
      · refine ⟨rfl, rfl, ?_⟩
        simp only [save_self, h]
    | Continue delta =>
      dsimp only
      cases nextNode g routers current (applyDelta s delta) with
      | error key =>
        dsimp only
        refine ⟨rfl, rfl, ?_⟩
        simp only [save_self, h]
      | ok nxt =>
        dsimp only
        split
        · refine ⟨rfl, rfl, ?_⟩
          simp only [save_self, h]
        · have hsv : save store threadId ⟨idx, applyDelta s delta, none⟩ threadId
              = save store' threadId ⟨idx, applyDelta s delta, none⟩ threadId := by
            rw [save_self, save_self, h]
          obtain ⟨h1, h2, h3⟩ :=
            ih (save store threadId ⟨idx, applyDelta s delta, none⟩)
              (save store' threadId ⟨idx, applyDelta s delta, none⟩) (idx + 1)
              (applyDelta s delta) nxt none hp hsv
          exact ⟨by rw [h1], h2, h3⟩

theorem runLoop_snapshots_nil (g : Graph) (handlers : String → Handler)
    (routers : String → GState → String) (threadId : String)
    (fuel : Nat) (store : CheckpointStore) (idx : Nat) (s : GState)
    (current : String) (rv : Option ResumeValue) (hp : Bool)
    (h : (runLoop g handlers routers threadId fuel store idx s current rv
      hp).snapshots = []) :
    (runLoop g handlers routers threadId fuel store idx s current rv
        hp).store = store ∨
      stateOfLatest (runLoop g handlers routers threadId fuel store idx s
        current rv hp).store threadId = s := by
  cases fuel with
  | zero => exact .inl rfl
  | succ fuel =>
    rw [runLoop] at h ⊢
    revert h
    cases handlers current s rv with
    | Suspend payload =>
      intro _
      dsimp only
      by_cases hpd : hp = true
      · rw [if_pos hpd]
        exact .inl rfl
      · rw [if_neg hpd]
        exact .inr (stateOfLatest_save store threadId
          ⟨idx, s, some ⟨current, payload⟩⟩)
    | Continue delta =>
      intro h
      dsimp only at h ⊢
      revert h
      cases nextNode g routers current (applyDelta s delta) with
      | error key =>
        intro h
        simp at h
      | ok nxt =>
        intro h
        dsimp only at h
        split at h
        · simp at h
        · simp at h

theorem runLoop_latest_state (g : Graph) (handlers : String → Handler)
    (routers : String → GState → String) (threadId : String) :
    ∀ (fuel : Nat) (store : CheckpointStore) (idx : Nat) (s : GState)
      (current : String) (rv : Option ResumeValue) (hp : Bool) (sl : GState),
      (runLoop g handlers routers threadId fuel store idx s current rv
        hp).snapshots.getLast? = some sl →
      stateOfLatest (runLoop g handlers routers threadId fuel store idx s
        current rv hp).store threadId = sl := by
  intro fuel
  induction fuel with
  | zero =>
    intro store idx s current rv hp sl h
    simp [runLoop] at h
  | succ fuel ih =>
    intro store idx s current rv hp sl h
    rw [runLoop] at h ⊢
    revert h
    cases handlers current s rv with
    | Suspend payload =>
      intro h
      dsimp only at h ⊢
      by_cases hpd : hp = true
      · rw [if_pos hpd] at h
        simp at h
      · rw [if_neg hpd] at h
        simp at h
    | Continue delta =>
      intro h
      dsimp only at h ⊢
      revert h
      cases nextNode g routers current (applyDelta s delta) with
      | error key =>
        intro h
        simp only [List.getLast?_singleton, Option.some.injEq] at h
        rw [← h]
        exact stateOfLatest_save store threadId ⟨idx, applyDelta s delta, none⟩
      | ok nxt =>
        intro h
        dsimp only at h ⊢
        by_cases hend : nxt = END
        · rw [if_pos hend] at h ⊢
          simp only [List.getLast?_singleton, Option.some.injEq] at h
          rw [← h]
          exact stateOfLatest_save store threadId ⟨idx, applyDelta s delta, none⟩
        · rw [if_neg hend] at h ⊢
          dsimp only at h ⊢
          cases hrs : (runLoop g handlers routers threadId fuel
              (save store threadId ⟨idx, applyDelta s delta, none⟩) (idx + 1)
              (applyDelta s delta) nxt none hp).snapshots with
          | nil =>
            rw [hrs] at h
            simp only [List.getLast?_singleton, Option.some.injEq] at h
            rcases runLoop_snapshots_nil g handlers routers threadId fuel
                (save store threadId ⟨idx, applyDelta s delta, none⟩) (idx + 1)
                (applyDelta s delta) nxt none hp hrs with hst | hst
            · rw [hst, ← h]
              exact stateOfLatest_save store threadId
                ⟨idx, applyDelta s delta, none⟩
            · rw [hst]
              exact h
          | cons a l =>
            rw [hrs] at h
            rw [List.getLast?_cons_cons] at h
            exact ih (save store threadId ⟨idx, applyDelta s delta, none⟩)
              (idx + 1) (applyDelta s delta) nxt none hp sl
              (by rw [hrs]; exact h)

theorem runLoop_no_suspend_when_pending (g : Graph)
    (handlers : String → Handler) (routers : String → GState → String)
    (threadId : String) :
    ∀ (fuel : Nat) (store : CheckpointStore) (idx : Nat) (s : GState)
      (current : String) (rv : Option ResumeValue) (p : InterruptPayload),
      (runLoop g handlers routers threadId fuel store idx s current rv
        true).outcome ≠ .suspended p := by
  intro fuel
  induction fuel with
  | zero =>
    intro store idx s current rv p h
    simp [runLoop] at h
  | succ fuel ih =>
    intro store idx s current rv p h
    rw [runLoop] at h
    revert h
    cases handlers current s rv with
    | Suspend payload =>
      intro h
      dsimp only at h
      rw [if_pos rfl] at h
      simp at h
    | Continue delta =>
      intro h
      dsimp only at h
      revert h
      cases nextNode g routers current (applyDelta s delta) with
      | error key =>
        intro h
        simp at h
      | ok nxt =>
        intro h
        dsimp only at h
        split at h
        · simp at h
        · exact ih _ _ _ _ _ p h

theorem loadLatest_congr (store store' : CheckpointStore) (threadId : String)
    (h : store threadId = store' threadId) :
    loadLatest store threadId = loadLatest store' threadId := by
  unfold loadLatest
  rw [h]

theorem stateOfLatest_congr (store store' : CheckpointStore)
    (threadId : String) (h : store threadId = store' threadId) :
    stateOfLatest store threadId = stateOfLatest store' threadId := by
  unfold stateOfLatest
  rw [loadLatest_congr store store' threadId h]

theorem nextIndex_congr (store store' : CheckpointStore) (threadId : String)
    (h : store threadId = store' threadId) :
    nextIndex store threadId = nextIndex store' threadId := by
  unfold nextIndex
  rw [loadLatest_congr store store' threadId h]

theorem pendingOf_congr (store store' : CheckpointStore) (threadId : String)
    (h : store threadId = store' threadId) :
    pendingOf store threadId = pendingOf store' threadId := by
  unfold pendingOf
  rw [loadLatest_congr store store' threadId h]

theorem run_store_other (g : Graph) (handlers : String → Handler)
    (routers : String → GState → String) (store : CheckpointStore)
    (threadId : String) (input : StateDelta) (fuel : Nat) (t : String)
    (ht : t ≠ threadId) :
    (run g handlers routers store threadId input fuel).store t = store t :=
  runLoop_store_other g handlers routers threadId fuel store _ _ _ _ _ t ht

theorem run_store_independent (g : Graph) (handlers : String → Handler)
    (routers : String → GState → String) (store store' : CheckpointStore)
    (threadId : String) (input : StateDelta) (fuel : Nat)
    (h : store threadId = store' threadId) :
    (run g handlers routers store threadId input fuel).snapshots =
      (run g handlers routers store' threadId input fuel).snapshots ∧
    (run g handlers routers store threadId input fuel).outcome =
      (run g handlers routers store' threadId input fuel).outcome := by
  unfold run
  rw [nextIndex_congr store store' threadId h,
    stateOfLatest_congr store store' threadId h,
    pendingOf_congr store store' threadId h]
  obtain ⟨h1, h2, _⟩ := runLoop_store_independent g handlers routers threadId
    fuel store store' (nextIndex store' threadId)
    (applyDelta (stateOfLatest store' threadId) input) g.entry none
    (pendingOf store' threadId).isSome h
  exact ⟨h1, h2⟩

/-! ### Checkpointing and isolation theorems -/

/-- C4: a run loads the latest checkpoint of its thread (the empty state
when none exists) and merges the input partial state into it via the
reducers, so (a) the loaded messages are a prefix of the merged initial
state's messages and of every emitted snapshot's messages, and (b) a
second run on the same thread observes every message accumulated by the
first run: the first run's final snapshot's messages are a prefix of
every snapshot of the second run. -/
theorem run_resumes_from_latest_checkpoint :
    (∀ (g : Graph) (handlers : String → Handler)
      (routers : String → GState → String) (store : CheckpointStore)
      (threadId : String) (input : StateDelta) (fuel : Nat),
      (stateOfLatest store threadId).messages <+:
        (applyDelta (stateOfLatest store threadId) input).messages ∧
      ∀ x ∈ (run g handlers routers store threadId input fuel).snapshots,
        (applyDelta (stateOfLatest store threadId) input).messages <+:
          x.messages) ∧
    (∀ (g : Graph) (handlers : String → Handler)
      (routers : String → GState → String) (store : CheckpointStore)
      (threadId : String) (in1 in2 : StateDelta) (fuel1 fuel2 : Nat)
      (sl : GState),
      (run g handlers routers store threadId in1 fuel1).snapshots.getLast? =
        some sl →
      ∀ x ∈ (run g handlers routers
          (run g handlers routers store threadId in1 fuel1).store threadId
          in2 fuel2).snapshots,
        sl.messages <+: x.messages) := by
  constructor
  · intro g handlers routers store threadId input fuel
    exact ⟨applyDelta_extends _ input,
      fun x hx => runLoop_snapshots_extend g handlers routers threadId fuel
        store _ _ _ _ _ x hx⟩
  · intro g handlers routers store threadId in1 in2 fuel1 fuel2 sl hsl x hx
    have hlatest : stateOfLatest
        (run g handlers routers store threadId in1 fuel1).store threadId =
          sl :=
      runLoop_latest_state g handlers routers threadId fuel1 store _ _ _ _ _
        sl hsl
    have h2 := runLoop_snapshots_extend g handlers routers threadId fuel2
      (run g handlers routers store threadId in1 fuel1).store _ _ _ _ _ x hx
    rw [hlatest] at h2
    exact (applyDelta_extends sl in2).trans h2

/-- Witness for C4: two consecutive runs of the basic graph on thread "1";
the first run's final messages are a prefix of the second run's snapshot
messages. -/
theorem run_resumes_from_latest_checkpoint_witness :
    (⟨[⟨"user", "hi", none, none⟩, ⟨"assistant", "reply", none, none⟩],
        ""⟩ : GState).messages <+:
      (⟨[⟨"user", "hi", none, none⟩, ⟨"assistant", "reply", none, none⟩,
         ⟨"user", "hi", none, none⟩, ⟨"assistant", "reply", none, none⟩],
        ""⟩ : GState).messages :=
  run_resumes_from_latest_checkpoint.2 basicGraph
    (basicHandlers (fun _ => ⟨"assistant", "reply", none, none⟩)) noRouter
    emptyStore "1" ⟨[⟨"user", "hi", none, none⟩], none⟩
    ⟨[⟨"user", "hi", none, none⟩], none⟩ 1 1
    ⟨[⟨"user", "hi", none, none⟩, ⟨"assistant", "reply", none, none⟩], ""⟩
    rfl
    ⟨[⟨"user", "hi", none, none⟩, ⟨"assistant", "reply", none, none⟩,
      ⟨"user", "hi", none, none⟩, ⟨"assistant", "reply", none, none⟩], ""⟩
    (by decide)

/-- C6: resuming a thread with no pending interrupt continues no run: it
fails with `InterruptMismatch`, leaving the store untouched and emitting
no snapshots; and while a thread's pending interrupt is unresumed a run
never emits a new suspension — a second suspend surfaces as
`InterruptMismatch` instead (shown generally and for a run whose entry
handler suspends at once, which leaves the store untouched).  Pending
interrupts live in the latest checkpoint's optional field, so at most one
exists per thread at any time. -/
theorem interrupt_mismatch_protocol :
    (∀ (g : Graph) (handlers : String → Handler)
      (routers : String → GState → String) (store : CheckpointStore)
      (threadId : String) (v : ResumeValue) (fuel : Nat),
      pendingOf store threadId = none →
      resume g handlers routers store threadId v fuel =
        ⟨store, [], .interruptMismatch⟩) ∧
    (∀ (g : Graph) (handlers : String → Handler)
      (routers : String → GState → String) (store : CheckpointStore)
      (threadId : String) (input : StateDelta) (fuel : Nat)
      (pi : PendingInterrupt) (p : InterruptPayload),
      pendingOf store threadId = some pi →
      (run g handlers routers store threadId input fuel).outcome ≠
        .suspended p) ∧
    (∀ (g : Graph) (handlers : String → Handler)
      (routers : String → GState → String) (store : CheckpointStore)
      (threadId : String) (input : StateDelta) (fuel : Nat)
      (pi : PendingInterrupt) (payload : InterruptPayload),
      pendingOf store threadId = some pi →
      handlers g.entry (applyDelta (stateOfLatest store threadId) input)
          none = .Suspend payload →
      0 < fuel →
      run g handlers routers store threadId input fuel =
        ⟨store, [], .interruptMismatch⟩) := by
  refine ⟨?_, ?_, ?_⟩
  · intro g handlers routers store threadId v fuel hpd
    unfold resume
    cases hload : loadLatest store threadId with
    | none => rfl
    | some cp =>
      have hpi : cp.pendingInterrupt = none := by
        unfold pendingOf at hpd
        rw [hload] at hpd
        exact hpd
      dsimp only
      rw [hpi]
  · intro g handlers routers store threadId input fuel pi p hpd h
    unfold run at h
    rw [hpd] at h
    exact runLoop_no_suspend_when_pending g handlers routers threadId fuel
      store _ _ _ _ p h
  · intro g handlers routers store threadId input fuel pi payload hpd hsusp
      hfuel
    cases fuel with
    | zero => omega
    | succ fuel =>
      unfold run
      rw [runLoop, hsusp]
      dsimp only
      rw [hpd]
      simp only [Option.isSome_some, if_true]

/-- Witness for C6: resuming a fresh thread (no checkpoints, hence no
pending interrupt) fails with InterruptMismatch. -/
theorem interrupt_mismatch_protocol_witness :
    resume basicGraph
        (basicHandlers (fun _ => ⟨"assistant", "reply", none, none⟩))
        noRouter emptyStore "7" ⟨"yes"⟩ 1 =
      ⟨emptyStore, [], .interruptMismatch⟩ :=
  interrupt_mismatch_protocol.1 basicGraph
    (basicHandlers (fun _ => ⟨"assistant", "reply", none, none⟩)) noRouter
    emptyStore "7" ⟨"yes"⟩ 1 rfl

/-- C7: thread ids are fully independent, sharing only the checkpoint
store: a run on one thread never touches another thread's checkpoints;
the snapshots and outcome of a run are a function of its own thread's
stored data and input alone; hence running on two distinct thread ids,
even against the store left behind by the other thread's run on identical
input, yields exactly the snapshots of a run on an unshared store. -/
theorem thread_isolation :
    (∀ (g : Graph) (handlers : String → Handler)
      (routers : String → GState → String) (store : CheckpointStore)
      (threadId : String) (input : StateDelta) (fuel : Nat) (t : String),
      t ≠ threadId →
      (run g handlers routers store threadId input fuel).store t = store t) ∧
    (∀ (g : Graph) (handlers : String → Handler)
      (routers : String → GState → String) (store store' : CheckpointStore)
      (threadId : String) (input : StateDelta) (fuel : Nat),
      store threadId = store' threadId →
      (run g handlers routers store threadId input fuel).snapshots =
        (run g handlers routers store' threadId input fuel).snapshots ∧
      (run g handlers routers store threadId input fuel).outcome =
        (run g handlers routers store' threadId input fuel).outcome) ∧
    (∀ (g : Graph) (handlers : String → Handler)
      (routers : String → GState → String) (store : CheckpointStore)
      (t1 t2 : String) (input : StateDelta) (fuel1 fuel2 : Nat),
      t2 ≠ t1 →
      (run g handlers routers
          (run g handlers routers store t1 input fuel1).store t2 input
          fuel2).snapshots =
        (run g handlers routers store t2 input fuel2).snapshots) := by
  refine ⟨?_, ?_, ?_⟩
  · intro g handlers routers store threadId input fuel t ht
    exact run_store_other g handlers routers store threadId input fuel t ht
  · intro g handlers routers store store' threadId input fuel h
    exact run_store_independent g handlers routers store store' threadId
      input fuel h
  · intro g handlers routers store t1 t2 input fuel1 fuel2 ht
    exact (run_store_independent g handlers routers
      (run g handlers routers store t1 input fuel1).store store t2 input
      fuel2
      (run_store_other g handlers routers store t1 input fuel1 t2 ht)).1

/-- Witness for C7: a run on thread "2" sees identical snapshots whether
or not thread "1" ran first against the same store. -/
theorem thread_isolation_witness :
    (run basicGraph
        (basicHandlers (fun _ => ⟨"assistant", "reply", none, none⟩))
        noRouter
        (run basicGraph
          (basicHandlers (fun _ => ⟨"assistant", "reply", none, none⟩))
          noRouter emptyStore "1" ⟨[], none⟩ 1).store
        "2" ⟨[], none⟩ 1).snapshots =
      (run basicGraph
        (basicHandlers (fun _ => ⟨"assistant", "reply", none, none⟩))
        noRouter emptyStore "2" ⟨[], none⟩ 1).snapshots :=
  thread_isolation.2.2 basicGraph
    (basicHandlers (fun _ => ⟨"assistant", "reply", none, none⟩)) noRouter
    emptyStore "1" "2" ⟨[], none⟩ 1 1 (by decide)

/-! ### Scenario theorems -/

/-- C9: on the linear graph of 1_graph_basic (start -> chatbot ->
terminal) with a fresh empty state, running with the single user message
as input executes the node exactly once and completes; the final (and
only) snapshot's messages are the user message followed by exactly the
one reply the handler produced from it.  The hypothesis says the model's
reply does not collide in identity with the user message (the reducer
would otherwise skip it). -/
theorem linear_graph_run (llm : List Message → Message) (userMsg : Message)
    (hfresh : hasId (llm [userMsg]).id [userMsg] = false) :
    (run basicGraph (basicHandlers llm) noRouter emptyStore "1"
        ⟨[userMsg], none⟩ 1).snapshots =
      [⟨[userMsg, llm [userMsg]], ""⟩] ∧
    (run basicGraph (basicHandlers llm) noRouter emptyStore "1"
        ⟨[userMsg], none⟩ 1).outcome = .completed := by
  have hstep : add_messages [userMsg] [llm [userMsg]] =
      [userMsg, llm [userMsg]] := by
    rw [add_messages_singleton, if_neg (by simp [hfresh])]
    rfl
  have hs0 : applyDelta (stateOfLatest emptyStore "1") ⟨[userMsg], none⟩ =
      (⟨[userMsg], ""⟩ : GState) := by
    show applyDelta emptyState ⟨[userMsg], none⟩ = _
    unfold applyDelta emptyState
    rw [add_messages_singleton, hasId_nil]
    rfl
  have key : run basicGraph (basicHandlers llm) noRouter emptyStore "1"
      ⟨[userMsg], none⟩ 1 =
      runLoop basicGraph (basicHandlers llm) noRouter "1" 1 emptyStore 0
        (⟨[userMsg], ""⟩ : GState) "chatbot" none false := by
    unfold run
    rw [hs0]
    rfl
  rw [key, runLoop]
  dsimp only [basicHandlers, chatbot_basic]
  have hmerge : applyDelta (⟨[userMsg], ""⟩ : GState)
      ⟨[llm [userMsg]], none⟩ = (⟨[userMsg, llm [userMsg]], ""⟩ : GState) := by
    unfold applyDelta
    rw [hstep]
    rfl
  rw [hmerge]
  have hnn : nextNode basicGraph noRouter "chatbot"
      (⟨[userMsg, llm [userMsg]], ""⟩ : GState) = .ok END := rfl
  rw [hnn]
  dsimp only
  rw [if_pos rfl]
  exact ⟨rfl, rfl⟩

/-- Witness for C9: a concrete user message and a model that replies with
one assistant message. -/
theorem linear_graph_run_witness :
    (run basicGraph
        (basicHandlers (fun _ => ⟨"assistant", "hello there", none, none⟩))
        noRouter emptyStore "1"
        ⟨[⟨"user", "hi", none, none⟩], none⟩ 1).snapshots =
      [⟨[⟨"user", "hi", none, none⟩,
         ⟨"assistant", "hello there", none, none⟩], ""⟩] :=
  (linear_graph_run (fun _ => ⟨"assistant", "hello there", none, none⟩)
    ⟨"user", "hi", none, none⟩ rfl).1

/-- C5: on the scenario-C graph whose node executes `human_assistance`,
a fresh run suspends: the handler's `interrupt({"query": q})` payload is
emitted as the suspension signal, no snapshot is produced from the
suspended handler, the outcome is `suspended` (paused, not failed), and
the saved checkpoint records the pending interrupt with the suspended
node; a subsequent `resume` of that thread with `{"data": v}` re-enters
exactly the suspended node, the suspend point evaluates to the resume
value so the handler returns `human_response["data"] = v` as one
tool-result message, and the run proceeds to the terminal sentinel
(outcome `completed`). -/
theorem interrupt_resume_scenario (q v : String) (m : Message)
    (t : String) :
    run humanGraph (humanHandlers q) noRouter emptyStore t ⟨[m], none⟩ 1 =
      ⟨save emptyStore t ⟨0, ⟨[m], ""⟩, some ⟨"human", ⟨q⟩⟩⟩, [],
        .suspended ⟨q⟩⟩ ∧
    pendingOf (save emptyStore t ⟨0, ⟨[m], ""⟩, some ⟨"human", ⟨q⟩⟩⟩) t =
      some ⟨"human", ⟨q⟩⟩ ∧
    resume humanGraph (humanHandlers q) noRouter
        (save emptyStore t ⟨0, ⟨[m], ""⟩, some ⟨"human", ⟨q⟩⟩⟩) t ⟨v⟩ 1 =
      ⟨save (save emptyStore t ⟨0, ⟨[m], ""⟩, some ⟨"human", ⟨q⟩⟩⟩) t
          ⟨1, ⟨[m, toolMessage v], ""⟩, none⟩,
        [⟨[m, toolMessage v], ""⟩], .completed⟩ := by
  have hs0 : applyDelta (stateOfLatest emptyStore t) ⟨[m], none⟩ =
      (⟨[m], ""⟩ : GState) := by
    show applyDelta emptyState ⟨[m], none⟩ = _
    unfold applyDelta emptyState
    rw [add_messages_singleton, hasId_nil]
    rfl
  refine ⟨?_, ?_, ?_⟩
  · have key : run humanGraph (humanHandlers q) noRouter emptyStore t
        ⟨[m], none⟩ 1 =
        runLoop humanGraph (humanHandlers q) noRouter t 1 emptyStore 0
          (⟨[m], ""⟩ : GState) "human" none false := by
      unfold run
      rw [hs0]
      rfl
    rw [key]
    rfl
  · unfold pendingOf
    rw [loadLatest_save]
    rfl
  · unfold resume
    rw [loadLatest_save]
    rfl

/-- Witness for C5: the scenario with query "confirm?", resume data
"yes" and a concrete user message — resuming completes with the
tool-result message carrying "yes". -/
theorem interrupt_resume_scenario_witness :
    resume humanGraph (humanHandlers "confirm?") noRouter
        (save emptyStore "1"
          ⟨0, ⟨[⟨"user", "hi", none, none⟩], ""⟩,
            some ⟨"human", ⟨"confirm?"⟩⟩⟩) "1" ⟨"yes"⟩ 1 =
      ⟨save (save emptyStore "1"
            ⟨0, ⟨[⟨"user", "hi", none, none⟩], ""⟩,
              some ⟨"human", ⟨"confirm?"⟩⟩⟩) "1"
          ⟨1, ⟨[⟨"user", "hi", none, none⟩, toolMessage "yes"], ""⟩, none⟩,
        [⟨[⟨"user", "hi", none, none⟩, toolMessage "yes"], ""⟩],
        .completed⟩ :=
  (interrupt_resume_scenario "confirm?" "yes" ⟨"user", "hi", none, none⟩
    "1").2.2

end S6LG
